import Mathlib

/-!
Verification development for the Roda zone-analytics ETL service.

The Python source is embedded shallowly: pandas/SQL/HTTP effects become
explicit data (lists of rows, option-valued network results), Python
floats become rationals, fallible Python code becomes `Except`-valued
functions, and Python exceptions that the source catches are modelled by
the corresponding catch-and-recover structure.
-/

namespace Roda


/-- Python `round(x)` (banker's rounding, half to even) on rationals. -/
def roundHalfEven (x : ℚ) : ℤ :=
  let n : ℤ := ⌊x⌋
  let r : ℚ := x - n
  if r < 1/2 then n
  else if 1/2 < r then n + 1
  else if n % 2 = 0 then n else n + 1

/-- Python `round(x, 2)`. -/
def pyRound2 (q : ℚ) : ℚ := (roundHalfEven (q * 100) : ℚ) / 100

/-- Python `round(x, 1)`. -/
def pyRound1 (q : ℚ) : ℚ := (roundHalfEven (q * 10) : ℚ) / 10

/-! ### Domain model (src/models/schemas.py) -/

/-- `RiskLevel` enumeration. -/
inductive RiskLevel where
  | VERY_LOW | LOW | MEDIUM | HIGH | VERY_HIGH
  deriving DecidableEq, Repr

/-- `TrendDirection` enumeration: the Python enum declares exactly these
three members (`INCREASING` / `DECREASING` do not exist on it). -/
inductive TrendDirection where
  | IMPROVING | STABLE | WORSENING
  deriving DecidableEq, Repr

/-- `SafetyMetrics` (pydantic model): integer theft counts (constrained
non-negative, hence `ℕ`) and rational densities/coverage. -/
structure SafetyMetrics where
  thefts_last_7_days : ℕ := 0
  thefts_last_30_days : ℕ := 0
  thefts_last_90_days : ℕ := 0
  theft_density_per_km2 : ℚ := 0
  bike_lane_coverage_km : ℚ := 0
  bike_lane_density_per_km2 : ℚ := 0
  safe_parking_spots : ℕ := 0
  parking_density_per_km2 : ℚ := 0
  deriving DecidableEq, Repr

/-! ### Risk thresholds (src/config/settings.py) and classification
(src/etl/transform.py, `DataTransformer.get_risk_level`) -/

/-- `Settings.risk_thresholds`: the dict literal in insertion order,
each level mapped to its `(min_score, max_score)` pair. -/
def risk_thresholds : List (RiskLevel × ℚ × ℚ) :=
  [(RiskLevel.VERY_LOW, 80, 100),
   (RiskLevel.LOW, 60, 80),
   (RiskLevel.MEDIUM, 40, 60),
   (RiskLevel.HIGH, 20, 40),
   (RiskLevel.VERY_HIGH, 0, 20)]

/-- The `for level, (min_score, max_score) in self.risk_thresholds.items()`
loop body of `get_risk_level`: return the first level whose half-open
interval contains the score. -/
def getRiskLevelAux : List (RiskLevel × ℚ × ℚ) → ℚ → RiskLevel
  | [], _ => RiskLevel.MEDIUM
  | (lvl, lo, hi) :: rest, s =>
      if lo ≤ s ∧ s < hi then lvl else getRiskLevelAux rest s

/-- `DataTransformer.get_risk_level`. -/
def get_risk_level (score : ℚ) : RiskLevel :=
  getRiskLevelAux risk_thresholds score

/-! ### Safety score (src/etl/transform.py, `calculate_safety_score`) -/

/-- The tiered 30-day theft penalty from `calculate_safety_score`. -/
def monthlyTheftPenalty (thefts30 : ℕ) : ℚ :=
  if thefts30 > 2000 then 40
  else if thefts30 > 1500 then 35
  else if thefts30 > 1000 then 30
  else if thefts30 > 500 then 20
  else if thefts30 > 100 then 10
  else 0

/-- The tiered theft-density penalty from `calculate_safety_score`. -/
def densityPenalty (density : ℚ) : ℚ :=
  if density > 50 then 15
  else if density > 30 then 12
  else if density > 20 then 10
  else if density > 10 then 6
  else if density > 5 then 3
  else 0

/-- `DataTransformer.calculate_safety_score`: base 100, penalties,
bonuses, clamp to `[0,100]`, return the 2-decimal rounding together with
the risk level of the (unrounded) clamped score. -/
def calculate_safety_score (metrics : SafetyMetrics) : ℚ × RiskLevel :=
  let score : ℚ := 100
  let recent_theft_penalty := min ((metrics.thefts_last_7_days : ℚ) * (1/10)) 20
  let score := score - recent_theft_penalty
  let score := score - monthlyTheftPenalty metrics.thefts_last_30_days
  let score := score - densityPenalty metrics.theft_density_per_km2
  let parking_bonus := min (metrics.parking_density_per_km2 * 5) 10
  let score := score + parking_bonus
  let bikelane_bonus := min (metrics.bike_lane_density_per_km2 * 10) 15
  let score := score + bikelane_bonus
  let score := max 0 (min 100 score)
  (pyRound2 score, get_risk_level score)

/-- Written from the specification's words for C1: clamp to `[0,100]`,
then round to 2 decimals, the value
`100 - min(thefts7*0.1,20) - tier30 - tierDensity + min(parking*5,10) + min(bikelane*10,15)`. -/
def spec_safety_score (m : SafetyMetrics) : ℚ :=
  pyRound2 (max 0 (min 100
    (100 - min ((m.thefts_last_7_days : ℚ) * (1/10)) 20
         - monthlyTheftPenalty m.thefts_last_30_days
         - densityPenalty m.theft_density_per_km2
         + min (m.parking_density_per_km2 * 5) 10
         + min (m.bike_lane_density_per_km2 * 10) 15)))

/-- Written from the specification's words for C2: the first of the five
declared bands whose half-open interval contains the score, `MEDIUM`
when no band contains it. -/
def spec_risk_level (s : ℚ) : RiskLevel :=
  if 0 ≤ s ∧ s < 20 then RiskLevel.VERY_HIGH
  else if 20 ≤ s ∧ s < 40 then RiskLevel.HIGH
  else if 40 ≤ s ∧ s < 60 then RiskLevel.MEDIUM
  else if 60 ≤ s ∧ s < 80 then RiskLevel.LOW
  else if 80 ≤ s ∧ s < 100 then RiskLevel.VERY_LOW
  else RiskLevel.MEDIUM

/-- Metrics of the worked example in C1. -/
def exampleMetrics : SafetyMetrics :=
  { thefts_last_7_days := 50
    thefts_last_30_days := 1200
    theft_density_per_km2 := 35
    parking_density_per_km2 := 2
    bike_lane_density_per_km2 := 1 }

/-! ### Load (src/etl/load.py) -/

/-- `RiskLevel.value` (the string stored in the database). -/
def RiskLevel.value : RiskLevel → String
  | .VERY_LOW => "VERY_LOW"
  | .LOW => "LOW"
  | .MEDIUM => "MEDIUM"
  | .HIGH => "HIGH"
  | .VERY_HIGH => "VERY_HIGH"

/-- `TrendDirection.value` (the string stored in the database). -/
def TrendDirection.value : TrendDirection → String
  | .IMPROVING => "IMPROVING"
  | .STABLE => "STABLE"
  | .WORSENING => "WORSENING"

/-- `SafetyRecommendations` (pydantic model); `parking_locations`
entries are kept as their JSON-encoded record strings. -/
structure SafetyRecommendations where
  best_hours : List String := []
  safe_routes : List String := []
  avoid_areas : List String := []
  parking_locations : List String := []
  deriving DecidableEq, Repr

/-- The fields of a `ZoneSafetyScore` that `load_zone_safety_scores`
binds as SQL parameters. Dates/timestamps are modelled as ordinals. -/
structure ZoneSafetyScore where
  zone_code : String
  calculation_date : ℤ
  safety_score : ℚ
  risk_level : RiskLevel
  metrics : SafetyMetrics
  trend : TrendDirection
  trend_percentage : ℚ
  recommendations : SafetyRecommendations
  created_at : ℤ
  updated_at : ℤ
  deriving DecidableEq, Repr

/-- A row of the `zone_safety_scores` table, with the columns named in
the INSERT statement of `load_zone_safety_scores`. -/
structure ScoreRow where
  zone_code : String
  calculation_date : ℤ
  safety_score : ℚ
  risk_level : String
  thefts_last_7_days : ℕ
  thefts_last_30_days : ℕ
  thefts_last_90_days : ℕ
  theft_density_per_km2 : ℚ
  bike_lane_coverage_km : ℚ
  bike_lane_density_per_km2 : ℚ
  safe_parking_spots : ℕ
  parking_density_per_km2 : ℚ
  trend : String
  trend_percentage : ℚ
  best_hours : List String
  safe_routes : List String
  avoid_areas : List String
  parking_locations : List String
  created_at : ℤ
  updated_at : ℤ
  deriving DecidableEq, Repr

/-- The VALUES clause: the row inserted when no conflicting row exists. -/
def newRow (s : ZoneSafetyScore) : ScoreRow :=
  { zone_code := s.zone_code
    calculation_date := s.calculation_date
    safety_score := s.safety_score
    risk_level := s.risk_level.value
    thefts_last_7_days := s.metrics.thefts_last_7_days
    thefts_last_30_days := s.metrics.thefts_last_30_days
    thefts_last_90_days := s.metrics.thefts_last_90_days
    theft_density_per_km2 := s.metrics.theft_density_per_km2
    bike_lane_coverage_km := s.metrics.bike_lane_coverage_km
    bike_lane_density_per_km2 := s.metrics.bike_lane_density_per_km2
    safe_parking_spots := s.metrics.safe_parking_spots
    parking_density_per_km2 := s.metrics.parking_density_per_km2
    trend := s.trend.value
    trend_percentage := s.trend_percentage
    best_hours := s.recommendations.best_hours
    safe_routes := s.recommendations.safe_routes
    avoid_areas := s.recommendations.avoid_areas
    parking_locations := s.recommendations.parking_locations
    created_at := s.created_at
    updated_at := s.updated_at }

/-- The `ON CONFLICT (zone_code, calculation_date) DO UPDATE SET` clause:
every column of the SET list takes the excluded (incoming) value; the key
columns and `created_at` (absent from the SET list) keep the old row's
values. -/
def updateRow (old : ScoreRow) (s : ZoneSafetyScore) : ScoreRow :=
  { newRow s with
      zone_code := old.zone_code
      calculation_date := old.calculation_date
      created_at := old.created_at }

/-- Primary key of a stored row. -/
def rowKey (r : ScoreRow) : String × ℤ := (r.zone_code, r.calculation_date)

/-- Key of an incoming score. -/
def scoreKey (s : ZoneSafetyScore) : String × ℤ := (s.zone_code, s.calculation_date)

/-- One `INSERT ... ON CONFLICT DO UPDATE` execution against a table
whose primary-key constraint guarantees at most one row per key: update
the (unique) conflicting row if present, else append the new row. -/
def upsertScore : List ScoreRow → ZoneSafetyScore → List ScoreRow
  | [], s => [newRow s]
  | r :: rs, s =>
      if r.zone_code = s.zone_code ∧ r.calculation_date = s.calculation_date
      then updateRow r s :: rs
      else r :: upsertScore rs s

/-- `DataLoader.load_zone_safety_scores`: execute the upsert for each
score in order (the committed effect of the batch). -/
def load_zone_safety_scores (table : List ScoreRow) (scores : List ZoneSafetyScore) :
    List ScoreRow :=
  scores.foldl upsertScore table

/-- The updatable fields of `r` all hold the values of `s` (everything
in the DO UPDATE SET list: metrics, trend, recommendations, score,
risk level and `updated_at`). -/
def rowTakesValues (r : ScoreRow) (s : ZoneSafetyScore) : Prop :=
  r.safety_score = s.safety_score ∧
  r.risk_level = s.risk_level.value ∧
  r.thefts_last_7_days = s.metrics.thefts_last_7_days ∧
  r.thefts_last_30_days = s.metrics.thefts_last_30_days ∧
  r.thefts_last_90_days = s.metrics.thefts_last_90_days ∧
  r.theft_density_per_km2 = s.metrics.theft_density_per_km2 ∧
  r.bike_lane_coverage_km = s.metrics.bike_lane_coverage_km ∧
  r.bike_lane_density_per_km2 = s.metrics.bike_lane_density_per_km2 ∧
  r.safe_parking_spots = s.metrics.safe_parking_spots ∧
  r.parking_density_per_km2 = s.metrics.parking_density_per_km2 ∧
  r.trend = s.trend.value ∧
  r.trend_percentage = s.trend_percentage ∧
  r.best_hours = s.recommendations.best_hours ∧
  r.safe_routes = s.recommendations.safe_routes ∧
  r.avoid_areas = s.recommendations.avoid_areas ∧
  r.parking_locations = s.recommendations.parking_locations ∧
  r.updated_at = s.updated_at

/-- Two sample writes for the C3 witness: same `(KENNEDY, 2025-06-01)`
key, different payloads. -/
def kennedyFirst : ZoneSafetyScore :=
  { zone_code := "KENNEDY"
    calculation_date := 20240
    safety_score := 55
    risk_level := RiskLevel.MEDIUM
    metrics := { thefts_last_30_days := 900 }
    trend := TrendDirection.STABLE
    trend_percentage := 0
    recommendations := {}
    created_at := 1
    updated_at := 1 }

def kennedySecond : ZoneSafetyScore :=
  { zone_code := "KENNEDY"
    calculation_date := 20240
    safety_score := 73
    risk_level := RiskLevel.LOW
    metrics := { thefts_last_7_days := 50, thefts_last_30_days := 1200 }
    trend := TrendDirection.WORSENING
    trend_percentage := 20
    recommendations := { best_hours := ["6:00 AM - 9:00 AM (horas pico matutinas)"] }
    created_at := 2
    updated_at := 2 }

/-! ### Real-data transform (src/etl/transform.py) -/

/-- Python runtime errors arising in the embedded code paths. -/
inductive PyError where
  | unboundLocalError
  | attributeError
  | httpError
  deriving DecidableEq, Repr

/-- Python `int(x)` (truncation toward zero). -/
def pyInt (q : ℚ) : ℤ := if 0 ≤ q then ⌊q⌋ else ⌈q⌉

/-- Python `str.upper()` on one character (ASCII range; other
characters in this data are already uppercase). -/
def pyUpperChar (c : Char) : Char :=
  if 'a' ≤ c ∧ c ≤ 'z' then Char.ofNat (c.toNat - 32) else c

/-- Python `str.upper()`. -/
def pyUpper (s : String) : String := ⟨s.data.map pyUpperChar⟩

/-- Drop leading whitespace from a character list. -/
def dropWhitespace : List Char → List Char
  | [] => []
  | c :: cs => if c.isWhitespace then dropWhitespace cs else c :: cs

/-- Python `str.strip()`. -/
def pyStrip (s : String) : String :=
  ⟨dropWhitespace ((dropWhitespace s.data.reverse).reverse)⟩

/-- The accent/spelling correction table of `normalize_locality_name`. -/
def name_mapping : List (String × String) :=
  [("LOS MARTIRES", "LOS MÁRTIRES"),
   ("USAQUEN", "USAQUÉN"),
   ("SAN CRISTOBAL", "SAN CRISTÓBAL"),
   ("CIUDAD BOLIVAR", "CIUDAD BOLÍVAR"),
   ("FONTIBON", "FONTIBÓN"),
   ("ENGATIVA", "ENGATIVÁ")]

/-- `normalize_locality_name`: uppercase, strip, then apply the mapping
with the normalized name itself as default. -/
def normalize_locality_name (name : String) : String :=
  let normalized := pyStrip (pyUpper name)
  match name_mapping.lookup normalized with
  | some v => v
  | none => normalized

/-- The crime-category column families of the aggregated dataset
(`{code}25CONT` / `{code}24CONT`, with `CMHCE25CON` truncated in the
source data). -/
inductive CrimeCol where
  | CMH | CMDS | CMHA | CMHM | CMHR | CMHP | CMHC | CMHB | CMHCE | CMLP | CMVI
  deriving DecidableEq, Repr

/-- `DataTransformer.crime_weights` in dict insertion order. -/
def crime_weights : List (CrimeCol × ℚ) :=
  [(.CMH, 10), (.CMDS, 8), (.CMHA, 6), (.CMHM, 5), (.CMHR, 4), (.CMHP, 3),
   (.CMHC, 3), (.CMHB, 2), (.CMHCE, 2), (.CMLP, 4), (.CMVI, 3)]

def violent_crime_cols : List CrimeCol := [.CMH, .CMDS, .CMLP, .CMVI]

def property_crime_cols : List CrimeCol :=
  [.CMHA, .CMHM, .CMHR, .CMHP, .CMHC, .CMHB, .CMHCE]

/-- A row of the aggregated per-locality crime GeoDataFrame. A column's
value is `none` when the column is absent or NaN (`pd.notna` fails). -/
structure CrimeRow where
  CMNOMLOCAL : String
  SHAPE_AREA : Option ℚ
  count25 : CrimeCol → Option ℚ
  count24 : CrimeCol → Option ℚ

/-- The `for col, weight in self.crime_weights.items()` loop of
`calculate_zone_metrics_real_data`, accumulating
`(weighted_crime_score, total_crimes, violent_crimes, property_crimes)`. -/
def accumulateCrimeCounts (row : CrimeRow) : ℚ × ℚ × ℚ × ℚ :=
  crime_weights.foldl
    (fun acc cw =>
      match row.count25 cw.1 with
      | some c =>
          (acc.1 + c * cw.2,
           acc.2.1 + c,
           acc.2.2.1 + (if cw.1 ∈ violent_crime_cols then c else 0),
           acc.2.2.2 + (if cw.1 ∉ violent_crime_cols ∧ cw.1 ∈ property_crime_cols then c else 0))
      | none => acc)
    (0, 0, 0, 0)

/-- Rows and column layout of the cycling-lane GeoDataFrame as used by
`_calculate_bike_lanes_in_zone`. -/
structure BikeLaneRow where
  localidad : String
  length_km : ℚ
  length : ℚ
  deriving DecidableEq, Repr

structure BikeLanesGDF where
  rows : List BikeLaneRow
  has_localidad : Bool
  has_length_km : Bool
  has_length : Bool

/-- `DataTransformer._calculate_bike_lanes_in_zone`. -/
def calculate_bike_lanes_in_zone (zone_name : String) (gdf : BikeLanesGDF) : ℚ :=
  if gdf.rows.isEmpty then 0
  else
    let zone_bike_lanes :=
      if gdf.has_localidad then
        gdf.rows.filter (fun r => pyUpper r.localidad == pyUpper zone_name)
      else []
    if zone_bike_lanes.isEmpty then
      let total_length :=
        if gdf.has_length_km then (gdf.rows.map (·.length_km)).sum
        else if gdf.has_length then (gdf.rows.map (·.length)).sum
        else 0
      pyRound2 (total_length / 20)
    else if gdf.has_length_km then
      pyRound2 ((zone_bike_lanes.map (·.length_km)).sum)
    else if gdf.has_length then
      pyRound2 ((zone_bike_lanes.map (·.length)).sum / 1000)
    else
      pyRound2 ((zone_bike_lanes.length : ℚ) * (1/2))

/-- Rows and column layout of the parking DataFrame as used by
`_calculate_parking_in_zone`. -/
structure ParkingRow where
  localidad : String
  capacidad : ℚ
  deriving DecidableEq, Repr

structure ParkingDF where
  rows : List ParkingRow
  has_localidad : Bool
  has_capacidad : Bool

/-- `DataTransformer._calculate_parking_in_zone`. -/
def calculate_parking_in_zone (zone_name : String) (df : ParkingDF) : ℤ :=
  if df.rows.isEmpty then 0
  else
    let zone_parking :=
      if df.has_localidad then
        df.rows.filter (fun r => pyUpper r.localidad == pyUpper zone_name)
      else []
    if zone_parking.isEmpty then
      max 1 ((df.rows.length : ℤ) / 20)
    else if df.has_capacidad then
      pyInt ((zone_parking.map (·.capacidad)).sum)
    else
      (zone_parking.length : ℤ)

/-- `DataTransformer.calculate_zone_metrics_real_data`. The zone-lookup
filter compares uppercased `CMNOMLOCAL` with the uppercased normalized
zone name. When the filter is empty, the early-return expression reads
the locals `bike_lanes_km` and `parking_spots`, which are only assigned
later in the function body: Python raises `UnboundLocalError` there, so
the branch is an error, not a `SafetyMetrics`. Theft counts pass through
`int(...)` and the pydantic non-negativity constraint (`toNat`). -/
def calculate_zone_metrics_real_data (zone_name : String)
    (crime_gdf : List CrimeRow) (bike_lanes_gdf : BikeLanesGDF)
    (parking_df : ParkingDF) : Except PyError SafetyMetrics :=
  let normalized_zone_name := normalize_locality_name zone_name
  let zone_crime_data := crime_gdf.filter
    (fun row => pyUpper row.CMNOMLOCAL == pyUpper normalized_zone_name)
  match zone_crime_data with
  | [] => .error .unboundLocalError
  | zone_data :: _ =>
      let acc := accumulateCrimeCounts zone_data
      let property_crimes := acc.2.2.2
      let months_in_data : ℚ := 6
      let property_crimes_monthly := property_crimes / months_in_data
      let thefts_7_days := pyInt (property_crimes_monthly * (7/30))
      let thefts_30_days := pyInt property_crimes_monthly
      let thefts_90_days := pyInt (property_crimes_monthly * 3)
      let zone_area_degrees := zone_data.SHAPE_AREA.getD (1/100)
      let zone_area_km2 := zone_area_degrees * 12321
      let zone_area_km2 := if zone_area_km2 < 1 ∨ zone_area_km2 > 1000 then 50 else zone_area_km2
      let theft_density_per_km2 := property_crimes_monthly / zone_area_km2
      let bike_lanes_km := calculate_bike_lanes_in_zone zone_name bike_lanes_gdf
      let parking_spots := calculate_parking_in_zone zone_name parking_df
      .ok { thefts_last_7_days := thefts_7_days.toNat
            thefts_last_30_days := thefts_30_days.toNat
            thefts_last_90_days := thefts_90_days.toNat
            theft_density_per_km2 := pyRound2 theft_density_per_km2
            bike_lane_coverage_km := bike_lanes_km
            safe_parking_spots := parking_spots.toNat
            parking_density_per_km2 := pyRound2 ((parking_spots : ℚ) / zone_area_km2)
            bike_lane_density_per_km2 := pyRound2 (bike_lanes_km / zone_area_km2) }

/-- A one-row crime dataset naming only KENNEDY, for the C4 witness. -/
def kennedyOnlyCrimeGdf : List CrimeRow :=
  [{ CMNOMLOCAL := "KENNEDY"
     SHAPE_AREA := some (1/100)
     count25 := fun _ => some 10
     count24 := fun _ => some 10 }]

/-! ### Crime trend (src/etl/transform.py, `calculate_crime_trend`) -/

/-- The `crime_types` list of `calculate_crime_trend`, in source order. -/
def trend_crime_types : List CrimeCol :=
  [.CMH, .CMLP, .CMHP, .CMHR, .CMHA, .CMHB, .CMHC, .CMHM, .CMDS, .CMVI]

/-- The body of the `try` block of `calculate_crime_trend`. The
assignments `trend = TrendDirection.INCREASING` and
`trend = TrendDirection.DECREASING` reference members that the
`TrendDirection` enum does not declare, so those branches raise
`AttributeError`. -/
def calculate_crime_trend_body (zone_name : String) (crime_gdf : List CrimeRow) :
    Except PyError (TrendDirection × ℚ) :=
  let normalized_zone_name := normalize_locality_name zone_name
  let zone_data := crime_gdf.filter
    (fun row => pyUpper row.CMNOMLOCAL == pyUpper normalized_zone_name)
  match zone_data with
  | [] => .ok (.STABLE, 0)
  | zone_record :: _ =>
      let crimes_2024 := trend_crime_types.foldl
        (fun acc t => acc + ((zone_record.count24 t).getD 0)) 0
      let crimes_2025 := trend_crime_types.foldl
        (fun acc t => acc + ((zone_record.count25 t).getD 0)) 0
      let crimes_2025_annualized := crimes_2025 * 2
      if crimes_2024 = 0 then
        if crimes_2025_annualized > 0 then .error .attributeError
        else .ok (.STABLE, 0)
      else
        let change_pct := ((crimes_2025_annualized - crimes_2024) / crimes_2024) * 100
        if change_pct > 15 then .error .attributeError
        else if change_pct < -15 then .error .attributeError
        else .ok (.STABLE, pyRound1 change_pct)

/-- `DataTransformer.calculate_crime_trend`: the blanket
`except Exception` returns `(TrendDirection.STABLE, 0.0)`. -/
def calculate_crime_trend (zone_name : String) (crime_gdf : List CrimeRow) :
    TrendDirection × ℚ :=
  match calculate_crime_trend_body zone_name crime_gdf with
  | .ok v => v
  | .error _ => (.STABLE, 0)

/-- A zone with 100 crimes across 2024 and 60 across the first half of
2025 (annualized 120, a +20% change, which the claim says must be
classified `INCREASING` with `20.0`). -/
def kennedyTrendRow : CrimeRow :=
  { CMNOMLOCAL := "KENNEDY"
    SHAPE_AREA := some (1/100)
    count25 := fun c => match c with | .CMH => some 60 | _ => some 0
    count24 := fun c => match c with | .CMH => some 100 | _ => some 0 }

def kennedyTrendGdf : List CrimeRow := [kennedyTrendRow]

/-! ### Extraction (src/etl/extract.py) -/

/-- A fetched/cached geospatial or tabular payload; the claims under
study only move payloads around, so rows are opaque strings. -/
abbrev GeoFrame := List String

/-- Environment of one cache-first source: the would-be network
response (`none` when the HTTP request fails), the cache-file contents
when the file exists, and whether the cache file is younger than the
TTL. -/
structure SourceEnv where
  networkData : Option GeoFrame
  cacheData : Option GeoFrame
  cacheFresh : Bool

/-- `DataExtractor.fetch_bike_lanes`: serve fresh cache when permitted;
otherwise fetch and cache; on fetch failure serve any existing cache
file (even expired), else return an empty GeoDataFrame. Every branch is
`.ok`: the `except` clause never re-raises. -/
def fetch_bike_lanes (use_cache : Bool) (env : SourceEnv) : Except PyError GeoFrame :=
  if use_cache ∧ env.cacheData.isSome ∧ env.cacheFresh then
    .ok (env.cacheData.getD [])
  else
    match env.networkData with
    | some gdf => .ok gdf
    | none =>
        match env.cacheData with
        | some cached => .ok cached
        | none => .ok []

/-- `DataExtractor.fetch_bike_parking`: same cache-first protocol. -/
def fetch_bike_parking (use_cache : Bool) (env : SourceEnv) : Except PyError GeoFrame :=
  if use_cache ∧ env.cacheData.isSome ∧ env.cacheFresh then
    .ok (env.cacheData.getD [])
  else
    match env.networkData with
    | some df => .ok df
    | none =>
        match env.cacheData with
        | some cached => .ok cached
        | none => .ok []

/-- `DataExtractor.fetch_zones`: same cache-first protocol for the
localidades/UPZ boundary downloads. -/
def fetch_zones (use_cache : Bool) (env : SourceEnv) : Except PyError GeoFrame :=
  if use_cache ∧ env.cacheData.isSome ∧ env.cacheFresh then
    .ok (env.cacheData.getD [])
  else
    match env.networkData with
    | some gdf => .ok gdf
    | none =>
        match env.cacheData with
        | some cached => .ok cached
        | none => .ok []

/-- The query parameters `fetch_crime_data` sends to the open-data API. -/
structure CrimeQueryParams where
  limit : ℕ
  order : String
  sel : String
  deriving DecidableEq, Repr

/-- The `params` dict of `fetch_crime_data`:
`{"$limit": min(limit, 100), "$order": ..., "$select": ...}`. -/
def crime_query_params (limit : ℕ) : CrimeQueryParams :=
  { limit := min limit 100
    order := "fecha_hecho DESC"
    sel := "fecha_hecho,tipo_de_hurto,armas_medios,cantidad,departamento,municipio" }

/-- A raw record of the crime API response (`none` = key absent or
falsy). -/
structure RawCrimeRecord where
  fecha_hecho : Option String
  tipo_de_hurto : Option String
  cantidad : ℕ
  deriving DecidableEq, Repr

/-- A processed incident record as built by `fetch_crime_data`. -/
structure ProcessedCrimeRecord where
  incident_date : String
  incident_type : String
  modalidad : String
  barrio : String
  zona : String
  cantidad : ℕ
  deriving DecidableEq, Repr

/-- The per-record processing loop of `fetch_crime_data` (records with
no truthy `fecha_hecho` are skipped). -/
def processCrimeRecord (r : RawCrimeRecord) : Option ProcessedCrimeRecord :=
  match r.fecha_hecho with
  | some d =>
      some { incident_date := d
             incident_type := "THEFT"
             modalidad := r.tipo_de_hurto.getD ""
             barrio := ""
             zona := ""
             cantidad := r.cantidad }
  | none => none

/-- `DataExtractor.fetch_crime_data`: builds the query (returned as the
first component: the request observable), and on any HTTP or processing
failure returns an empty list rather than raising. -/
def fetch_crime_data (limit : ℕ) (response : Option (List RawCrimeRecord)) :
    CrimeQueryParams × Except PyError (List ProcessedCrimeRecord) :=
  let params := crime_query_params limit
  match response with
  | some data => (params, .ok (data.filterMap processCrimeRecord))
  | none => (params, .ok [])

/-- The five per-source environments seen by one `fetch_all_data` call. -/
structure ExtractEnv where
  crime : Option (List RawCrimeRecord)
  bike_lanes : SourceEnv
  bike_parking : SourceEnv
  localidades : SourceEnv
  upz : SourceEnv

/-- The record returned by `fetch_all_data`. -/
structure AllData where
  crime_data : List ProcessedCrimeRecord
  bike_lanes : GeoFrame
  bike_parking : GeoFrame
  localidades : GeoFrame
  upz : GeoFrame

/-- `DataExtractor.fetch_all_data`: gather the five fetches and re-raise
the first exception among the results (crime fetch uses the default
`limit=10000`). -/
def fetch_all_data (use_cache : Bool) (env : ExtractEnv) : Except PyError AllData := do
  let crime_data ← (fetch_crime_data 10000 env.crime).2
  let lanes ← fetch_bike_lanes use_cache env.bike_lanes
  let parking ← fetch_bike_parking use_cache env.bike_parking
  let localidades ← fetch_zones use_cache env.localidades
  let upz ← fetch_zones use_cache env.upz
  return ⟨crime_data, lanes, parking, localidades, upz⟩

/-- A concrete environment: bike-lane HTTP down with a stale cache
present; the other sources in mixed states. -/
def c6Env : ExtractEnv :=
  { crime := none
    bike_lanes := ⟨none, some ["lane-segment-1"], false⟩
    bike_parking := ⟨none, none, false⟩
    localidades := ⟨some ["localidad-row"], none, true⟩
    upz := ⟨none, some ["upz-row"], true⟩ }

/-! ### Read path and ML endpoints (src/etl/load.py `get_latest_scores`,
src/main.py `list_zones` / `cluster_zones`,
src/services/anomaly_detection.py `ZoneAnomalyDetector.cluster_zones`) -/

/-- A row of the `v_current_safety_scores` view, restricted to the
columns the endpoints under study read. -/
structure ViewRow where
  zone_code : String
  safety_score : ℚ
  risk_level : String
  deriving DecidableEq, Repr

/-- Insertion step of the ascending sort on `safety_score`. -/
def insertAsc (r : ViewRow) : List ViewRow → List ViewRow
  | [] => [r]
  | x :: xs =>
      if r.safety_score ≤ x.safety_score then r :: x :: xs
      else x :: insertAsc r xs

/-- `ORDER BY safety_score ASC`. -/
def sortAsc : List ViewRow → List ViewRow
  | [] => []
  | x :: xs => insertAsc x (sortAsc xs)

/-- `DataLoader.get_latest_scores` without a zone filter:
`SELECT * FROM v_current_safety_scores ORDER BY safety_score ASC LIMIT
:limit`. -/
def get_latest_scores (store : List ViewRow) (limit : ℕ) : List ViewRow :=
  (sortAsc store).take limit

/-- `GET /zones` (`list_zones` in src/main.py): fetch
`get_latest_scores(limit=limit)` first, then apply the optional
`risk_level` filter to the rows already truncated to `limit`. -/
def list_zones (store : List ViewRow) (risk_level : Option String) (limit : ℕ) :
    List ViewRow :=
  let scores := get_latest_scores store limit
  match risk_level with
  | some rl => scores.filter (fun s => s.risk_level == rl)
  | none => scores

/-- Result of `ZoneAnomalyDetector.cluster_zones`; the k-means fit of
the sufficient-data branch is abstracted to the zone memberships it is
computed from. -/
inductive ClusterResult where
  | insufficient_data
  | report (n_clusters : ℕ) (zones : List String)
  deriving DecidableEq, Repr

/-- `ZoneAnomalyDetector.cluster_zones`: fewer rows than `n_clusters`
reports insufficient data instead of fitting a model. -/
def detector_cluster_zones (zone_data : List ViewRow) (n_clusters : ℕ) :
    ClusterResult :=
  if zone_data.length < n_clusters then .insufficient_data
  else .report n_clusters (zone_data.map (·.zone_code))

/-- An HTTP response produced by the `/ml/clusters` endpoint. -/
structure HttpResponse where
  status : ℕ
  detail : String
  deriving DecidableEq, Repr

/-- `GET /ml/clusters` (`cluster_zones` in src/main.py): the
insufficient-data `HTTPException(404)` is raised inside `try:` whose
only handler is `except Exception` — and FastAPI's `HTTPException` is an
`Exception` — so the handler catches it and re-raises
`HTTPException(500, "Error clustering zones: ...")`. -/
def cluster_zones_endpoint (store : List ViewRow) (n_clusters : ℕ) : HttpResponse :=
  let scores := get_latest_scores store 100
  let body : Except HttpResponse ClusterResult :=
    if scores.isEmpty ∨ scores.length < n_clusters then
      .error ⟨404, "Insufficient data for clusters"⟩
    else
      .ok (detector_cluster_zones scores n_clusters)
  match body with
  | .ok _ => ⟨200, "clustering"⟩
  | .error e => ⟨500, "Error clustering zones: " ++ e.detail⟩

/-- A store holding only three zone score rows. -/
def threeZoneStore : List ViewRow :=
  [⟨"BOSA", 30, "HIGH"⟩, ⟨"KENNEDY", 10, "VERY_HIGH"⟩, ⟨"CHAPINERO", 55, "MEDIUM"⟩]

/-- A store in which the two safest zones are `VERY_LOW` but sit beyond
the first two rows of the ascending ordering. -/
def c8Store : List ViewRow :=
  [⟨"CHAPINERO", 85, "VERY_LOW"⟩, ⟨"BOSA", 10, "VERY_HIGH"⟩,
   ⟨"TEUSAQUILLO", 90, "VERY_LOW"⟩, ⟨"KENNEDY", 15, "VERY_HIGH"⟩]

/-! ### Trend prediction (src/services/anomaly_detection.py,
`ZoneAnomalyDetector.predict_trend`) -/

/-- A historical `zone_safety_scores` row as consumed by
`predict_trend`. -/
structure HistoryRow where
  zone_code : String
  calculation_date : ℤ
  thefts_last_30_days : ℚ
  deriving DecidableEq, Repr

/-- Insertion step of the ascending sort on `calculation_date`. -/
def insertByDate (r : HistoryRow) : List HistoryRow → List HistoryRow
  | [] => [r]
  | x :: xs =>
      if r.calculation_date ≤ x.calculation_date then r :: x :: xs
      else x :: insertByDate r xs

/-- `zone_history.sort_values('calculation_date')`. -/
def sortByDate : List HistoryRow → List HistoryRow
  | [] => []
  | x :: xs => insertByDate x (sortByDate xs)

/-- The dict returned by `predict_trend` on success. -/
structure TrendPrediction where
  zone : String
  current_thefts : ℚ
  predicted_thefts_30d : ℚ
  trend : String
  slope : ℚ
  confidence : String
  deriving DecidableEq, Repr

/-- `ZoneAnomalyDetector.predict_trend`: filter the history to the
zone; fewer than 3 records is insufficient (`none`); otherwise sort by
date, convert dates to days-from-minimum, fit the manual OLS slope
(slope 0 when the denominator vanishes), extrapolate 30 days past the
last observation, and clamp the prediction below at 0
(`float(max(0, prediction))`). -/
def predict_trend (zone_code : String) (historical_data : List HistoryRow) :
    Option TrendPrediction :=
  let zone_history := historical_data.filter (fun r => r.zone_code == zone_code)
  if zone_history.length < 3 then none
  else
    let sorted := sortByDate zone_history
    let dates := sorted.map (·.calculation_date)
    let minDate := dates.foldl min (dates.headD 0)
    let X : List ℚ := dates.map (fun d => ((d - minDate : ℤ) : ℚ))
    let y : List ℚ := sorted.map (·.thefts_last_30_days)
    let n : ℚ := X.length
    let x_mean := X.sum / n
    let y_mean := y.sum / n
    let numerator := (X.zip y).foldl
      (fun acc p => acc + (p.1 - x_mean) * (p.2 - y_mean)) 0
    let denominator := X.foldl (fun acc x => acc + (x - x_mean) ^ 2) 0
    let slope := if denominator = 0 then 0 else numerator / denominator
    let intercept := y_mean - slope * x_mean
    let next_30_days := X.getLastD 0 + 30
    let prediction := slope * next_30_days + intercept
    let trend :=
      if slope < -(1/2) then "MEJORANDO_SIGNIFICATIVAMENTE"
      else if slope < -(1/10) then "MEJORANDO"
      else if slope > 1/2 then "EMPEORANDO_SIGNIFICATIVAMENTE"
      else if slope > 1/10 then "EMPEORANDO"
      else "ESTABLE"
    let confidence :=
      if zone_history.length ≥ 12 then "HIGH"
      else if zone_history.length ≥ 6 then "MEDIUM"
      else "LOW"
    some { zone := zone_code
           current_thefts := y.getLastD 0
           predicted_thefts_30d := max 0 prediction
           trend := trend
           slope := slope
           confidence := confidence }

/-- A three-record declining history whose raw OLS extrapolation is
negative (slope −50, raw prediction −1500). -/
def decliningHistory : List HistoryRow :=
  [⟨"Z", 2, 0⟩, ⟨"Z", 0, 100⟩, ⟨"Z", 1, 50⟩]

theorem roundHalfEven_nonneg {x : ℚ} (hx : 0 ≤ x) : 0 ≤ roundHalfEven x := by
  unfold roundHalfEven
  dsimp only
  have hfl : (0 : ℤ) ≤ ⌊x⌋ := Int.floor_nonneg.mpr hx
  split_ifs <;> omega

theorem roundHalfEven_le {x : ℚ} {B : ℤ} (hx : x ≤ B) : roundHalfEven x ≤ B := by
  unfold roundHalfEven
  dsimp only
  have hfl : ⌊x⌋ ≤ B := by
    have := Int.floor_le_floor hx
    simpa using this
  rcases eq_or_lt_of_le hfl with heq | hlt
  · have hr : x - ((⌊x⌋ : ℤ) : ℚ) < 1/2 := by
      have h1 : x ≤ ((⌊x⌋ : ℤ) : ℚ) := by
        rw [heq]; exact_mod_cast hx
      linarith
    rw [if_pos hr]
    exact hfl
  · split_ifs <;> omega

theorem pyRound2_nonneg {q : ℚ} (hq : 0 ≤ q) : 0 ≤ pyRound2 q := by
  unfold pyRound2
  have h : (0 : ℤ) ≤ roundHalfEven (q * 100) :=
    roundHalfEven_nonneg (by positivity)
  positivity

theorem pyRound2_le_100 {q : ℚ} (hq : q ≤ 100) : pyRound2 q ≤ 100 := by
  unfold pyRound2
  have h : roundHalfEven (q * 100) ≤ (10000 : ℤ) := by
    apply roundHalfEven_le
    push_cast
    linarith
  rw [div_le_iff₀ (by norm_num : (0:ℚ) < 100)]
  calc ((roundHalfEven (q * 100) : ℚ)) ≤ (10000 : ℚ) := by exact_mod_cast h
    _ = 100 * 100 := by norm_num

/-- C1: for every `SafetyMetrics`, `calculate_safety_score` returns the
clamp-to-`[0,100]`-then-round-to-2-decimals of
`100 - min(thefts7*0.1,20) - tier30 - tierDensity + min(parking*5,10) +
min(bikelane*10,15)`; the score always lies in `[0,100]`; and the worked
example (`thefts7=50, thefts30=1200, density=35, parking_density=2,
bikelane_density=1`) yields score `73` with risk level `LOW`. -/
theorem calculate_safety_score_matches_spec_and_bounded :
    (∀ m : SafetyMetrics,
        (calculate_safety_score m).1 = spec_safety_score m ∧
        0 ≤ (calculate_safety_score m).1 ∧
        (calculate_safety_score m).1 ≤ 100) ∧
    calculate_safety_score exampleMetrics = (73, RiskLevel.LOW) := by
  constructor
  · intro m
    refine ⟨rfl, ?_, ?_⟩
    · exact pyRound2_nonneg (le_max_left _ _)
    · exact pyRound2_le_100 (max_le (by norm_num) (min_le_left _ _))
  · norm_num [calculate_safety_score, exampleMetrics, monthlyTheftPenalty,
      densityPenalty, pyRound2, roundHalfEven, get_risk_level,
      getRiskLevelAux, risk_thresholds]

/-- C2: `get_risk_level` agrees everywhere with the declared five-band
classification (first band whose half-open interval contains the score,
`MEDIUM` when none does, notably at exactly `100`), and classifies the
ten sample scores as listed. -/
theorem get_risk_level_matches_spec_and_samples :
    (∀ s : ℚ, get_risk_level s = spec_risk_level s) ∧
    get_risk_level 0 = RiskLevel.VERY_HIGH ∧
    get_risk_level (19999/1000) = RiskLevel.VERY_HIGH ∧
    get_risk_level 20 = RiskLevel.HIGH ∧
    get_risk_level (39999/1000) = RiskLevel.HIGH ∧
    get_risk_level 40 = RiskLevel.MEDIUM ∧
    get_risk_level (59999/1000) = RiskLevel.MEDIUM ∧
    get_risk_level 60 = RiskLevel.LOW ∧
    get_risk_level (79999/1000) = RiskLevel.LOW ∧
    get_risk_level 80 = RiskLevel.VERY_LOW ∧
    get_risk_level (99999/1000) = RiskLevel.VERY_LOW ∧
    get_risk_level 100 = RiskLevel.MEDIUM := by
  refine ⟨?_, ?_, ?_, ?_, ?_, ?_, ?_, ?_, ?_, ?_, ?_, ?_⟩
  · intro s
    simp only [get_risk_level, getRiskLevelAux, risk_thresholds, spec_risk_level]
    split_ifs <;>
      first
        | rfl
        | (exfalso
           simp only [not_and, not_lt, not_le] at *
           rename_i ha hb
           first
             | linarith [ha.1, ha.2]
             | (obtain ⟨hb1, hb2⟩ := hb; linarith [ha hb1])
             | linarith)
  all_goals
    norm_num [get_risk_level, getRiskLevelAux, risk_thresholds]

theorem rowKey_updateRow (old : ScoreRow) (s : ZoneSafetyScore) :
    rowKey (updateRow old s) = rowKey old := rfl

theorem rowKey_newRow (s : ZoneSafetyScore) : rowKey (newRow s) = scoreKey s := rfl

theorem upsert_cond_iff (r : ScoreRow) (s : ZoneSafetyScore) :
    (r.zone_code = s.zone_code ∧ r.calculation_date = s.calculation_date) ↔
      rowKey r = scoreKey s := by
  constructor
  · rintro ⟨h1, h2⟩; simp [rowKey, scoreKey, h1, h2]
  · intro h
    have h1 : r.zone_code = s.zone_code := congrArg Prod.fst h
    have h2 : r.calculation_date = s.calculation_date := congrArg Prod.snd h
    exact ⟨h1, h2⟩

theorem mem_keys_upsert (t : List ScoreRow) (s : ZoneSafetyScore) (k : String × ℤ) :
    k ∈ (upsertScore t s).map rowKey ↔ k ∈ t.map rowKey ∨ k = scoreKey s := by
  induction t with
  | nil => simp [upsertScore, rowKey_newRow]
  | cons a t ih =>
      by_cases h : a.zone_code = s.zone_code ∧ a.calculation_date = s.calculation_date
      · have hk : rowKey a = scoreKey s := (upsert_cond_iff a s).mp h
        simp only [upsertScore, if_pos h, List.map_cons, rowKey_updateRow,
          List.mem_cons, hk]
        tauto
      · simp only [upsertScore, if_neg h, List.map_cons, List.mem_cons, ih]
        tauto

theorem filter_key_eq_nil (t : List ScoreRow) (k : String × ℤ)
    (h : k ∉ t.map rowKey) :
    t.filter (fun r => rowKey r = k) = [] := by
  induction t with
  | nil => rfl
  | cons a t ih =>
      simp only [List.map_cons, List.mem_cons, not_or] at h
      have ha : ¬ rowKey a = k := fun hc => h.1 hc.symm
      simpa [List.filter_cons, ha] using ih h.2

theorem nodup_keys_upsert (t : List ScoreRow) (s : ZoneSafetyScore)
    (h : (t.map rowKey).Nodup) :
    ((upsertScore t s).map rowKey).Nodup := by
  induction t with
  | nil => simp [upsertScore]
  | cons a t ih =>
      simp only [List.map_cons, List.nodup_cons] at h
      by_cases hc : a.zone_code = s.zone_code ∧ a.calculation_date = s.calculation_date
      · simp only [upsertScore, if_pos hc, List.map_cons, rowKey_updateRow,
          List.nodup_cons]
        exact ⟨h.1, h.2⟩
      · have hk : ¬ rowKey a = scoreKey s := fun hc2 =>
          hc ((upsert_cond_iff a s).mpr hc2)
        simp only [upsertScore, if_neg hc, List.map_cons, List.nodup_cons,
          mem_keys_upsert]
        refine ⟨?_, ih h.2⟩
        rintro (hmem | heq)
        · exact h.1 hmem
        · exact hk heq

theorem newRow_takesValues (s : ZoneSafetyScore) : rowTakesValues (newRow s) s := by
  refine ⟨rfl, rfl, rfl, rfl, rfl, rfl, rfl, rfl, rfl, rfl, rfl, rfl, rfl, rfl, rfl, rfl, rfl⟩

theorem updateRow_takesValues (old : ScoreRow) (s : ZoneSafetyScore) :
    rowTakesValues (updateRow old s) s := by
  refine ⟨rfl, rfl, rfl, rfl, rfl, rfl, rfl, rfl, rfl, rfl, rfl, rfl, rfl, rfl, rfl, rfl, rfl⟩

theorem mem_upsert_key_takesValues (t : List ScoreRow) (s : ZoneSafetyScore)
    (h : (t.map rowKey).Nodup) :
    ∀ r ∈ upsertScore t s, rowKey r = scoreKey s → rowTakesValues r s := by
  induction t with
  | nil =>
      intro r hr _
      simp only [upsertScore, List.mem_singleton] at hr
      subst hr; exact newRow_takesValues s
  | cons a t ih =>
      simp only [List.map_cons, List.nodup_cons] at h
      intro r hr hrk
      by_cases hc : a.zone_code = s.zone_code ∧ a.calculation_date = s.calculation_date
      · have hk : rowKey a = scoreKey s := (upsert_cond_iff a s).mp hc
        simp only [upsertScore, if_pos hc, List.mem_cons] at hr
        rcases hr with heq | hmem
        · subst heq; exact updateRow_takesValues a s
        · exfalso
          apply h.1
          rw [hk, ← hrk]
          exact List.mem_map_of_mem rowKey hmem
      · simp only [upsertScore, if_neg hc, List.mem_cons] at hr
        rcases hr with heq | hmem
        · exfalso
          exact hc ((upsert_cond_iff a s).mpr (heq ▸ hrk))
        · exact ih h.2 r hmem hrk

theorem filter_key_upsert_length (t : List ScoreRow) (s : ZoneSafetyScore)
    (h : (t.map rowKey).Nodup) :
    ((upsertScore t s).filter (fun r => rowKey r = scoreKey s)).length = 1 := by
  induction t with
  | nil => simp [upsertScore, List.filter_cons, rowKey_newRow]
  | cons a t ih =>
      simp only [List.map_cons, List.nodup_cons] at h
      by_cases hc : a.zone_code = s.zone_code ∧ a.calculation_date = s.calculation_date
      · have hk : rowKey a = scoreKey s := (upsert_cond_iff a s).mp hc
        have hnil : t.filter (fun r => rowKey r = scoreKey s) = [] :=
          filter_key_eq_nil t (scoreKey s) (hk ▸ h.1)
        simp [upsertScore, if_pos hc, List.filter_cons, rowKey_updateRow, hk, hnil]
      · have hk : ¬ rowKey a = scoreKey s := fun hc2 =>
          hc ((upsert_cond_iff a s).mpr hc2)
        simpa [upsertScore, if_neg hc, List.filter_cons, hk] using ih h.2

theorem nodup_filter_key_le_one (t : List ScoreRow)
    (h : (t.map rowKey).Nodup) (k : String × ℤ) :
    (t.filter (fun r => rowKey r = k)).length ≤ 1 := by
  induction t with
  | nil => simp
  | cons a t ih =>
      simp only [List.map_cons, List.nodup_cons] at h
      by_cases ha : rowKey a = k
      · have hnil : t.filter (fun r => rowKey r = k) = [] :=
          filter_key_eq_nil t k (ha ▸ h.1)
        simp [List.filter_cons, ha, hnil]
      · simpa [List.filter_cons, ha] using ih h.2

/-- C3: against a store with at most one row per `(zone_code,
calculation_date)` key, loading a score and then a second score with
the same key leaves exactly one row for that key, every updatable field
of which holds the second write's values; and the one-row-per-key
invariant is preserved for every key. -/
theorem load_zone_safety_scores_upsert_semantics
    (table : List ScoreRow) (s1 s2 : ZoneSafetyScore)
    (h_nodup : (table.map rowKey).Nodup)
    (h_key : scoreKey s1 = scoreKey s2) :
    ((load_zone_safety_scores (load_zone_safety_scores table [s1]) [s2]).filter
        (fun r => rowKey r = scoreKey s2)).length = 1 ∧
    (∀ r ∈ load_zone_safety_scores (load_zone_safety_scores table [s1]) [s2],
        rowKey r = scoreKey s2 → rowTakesValues r s2) ∧
    (∀ k, ((load_zone_safety_scores (load_zone_safety_scores table [s1]) [s2]).filter
        (fun r => rowKey r = k)).length ≤ 1) := by
  have h1 : load_zone_safety_scores table [s1] = upsertScore table s1 := rfl
  have h2 : load_zone_safety_scores (upsertScore table s1) [s2] =
      upsertScore (upsertScore table s1) s2 := rfl
  have hn1 : ((upsertScore table s1).map rowKey).Nodup :=
    nodup_keys_upsert table s1 h_nodup
  have hn2 : ((upsertScore (upsertScore table s1) s2).map rowKey).Nodup :=
    nodup_keys_upsert _ s2 hn1
  refine ⟨?_, ?_, ?_⟩
  · rw [h1, h2]
    exact filter_key_upsert_length _ s2 hn1
  · rw [h1, h2]
    exact mem_upsert_key_takesValues _ s2 hn1
  · intro k
    rw [h1, h2]
    exact nodup_filter_key_le_one _ hn2 k

/-- C4 (code defect): whenever no row of the aggregated crime dataset
matches the normalized zone name, `calculate_zone_metrics_real_data`
raises `UnboundLocalError` (the early-return expression references the
not-yet-assigned locals `bike_lanes_km` / `parking_spots`) instead of
returning zeroed theft metrics with the infrastructure metrics. -/
theorem calculate_zone_metrics_real_data_no_match_raises
    (zone_name : String) (crime_gdf : List CrimeRow)
    (bike_lanes_gdf : BikeLanesGDF) (parking_df : ParkingDF)
    (h : crime_gdf.filter
        (fun row => pyUpper row.CMNOMLOCAL ==
          pyUpper (normalize_locality_name zone_name)) = []) :
    calculate_zone_metrics_real_data zone_name crime_gdf bike_lanes_gdf parking_df =
      .error .unboundLocalError := by
  unfold calculate_zone_metrics_real_data
  dsimp only
  rw [h]

theorem calculate_zone_metrics_real_data_no_match_raises_witness :
    (kennedyOnlyCrimeGdf.filter
        (fun row => pyUpper row.CMNOMLOCAL ==
          pyUpper (normalize_locality_name "SUMAPAZ")) = []) ∧
    calculate_zone_metrics_real_data "SUMAPAZ" kennedyOnlyCrimeGdf
      ⟨[], false, false, false⟩ ⟨[], false, false⟩ = .error .unboundLocalError :=
  ⟨rfl,
   calculate_zone_metrics_real_data_no_match_raises "SUMAPAZ" kennedyOnlyCrimeGdf
     ⟨[], false, false, false⟩ ⟨[], false, false⟩ rfl⟩

theorem load_zone_safety_scores_upsert_semantics_witness :
    (([] : List ScoreRow).map rowKey).Nodup ∧
    scoreKey kennedyFirst = scoreKey kennedySecond ∧
    (((load_zone_safety_scores (load_zone_safety_scores [] [kennedyFirst]) [kennedySecond]).filter
        (fun r => rowKey r = scoreKey kennedySecond)).length = 1 ∧
    (∀ r ∈ load_zone_safety_scores (load_zone_safety_scores [] [kennedyFirst]) [kennedySecond],
        rowKey r = scoreKey kennedySecond → rowTakesValues r kennedySecond) ∧
    (∀ k, ((load_zone_safety_scores (load_zone_safety_scores [] [kennedyFirst]) [kennedySecond]).filter
        (fun r => rowKey r = k)).length ≤ 1)) :=
  ⟨List.nodup_nil, rfl,
    load_zone_safety_scores_upsert_semantics [] kennedyFirst kennedySecond
      List.nodup_nil rfl⟩

/-- C5 (code defect): `calculate_crime_trend` can never report an
increasing or decreasing trend — its first component is `STABLE` on
every input, because the `INCREASING`/`DECREASING` branches raise
`AttributeError` (members absent from `TrendDirection`), which the
blanket handler converts to `(STABLE, 0.0)`. In particular the +20%
example returns `(STABLE, 0)`, not `(INCREASING, 20.0)`, and the
zero-2024/positive-2025 case returns `(STABLE, 0)`, not
`(INCREASING, 100.0)`. -/
theorem calculate_crime_trend_always_stable :
    (∀ (zone_name : String) (crime_gdf : List CrimeRow),
        (calculate_crime_trend zone_name crime_gdf).1 = TrendDirection.STABLE) ∧
    calculate_crime_trend "KENNEDY" kennedyTrendGdf = (TrendDirection.STABLE, 0) := by
  constructor
  · intro zone_name crime_gdf
    unfold calculate_crime_trend
    cases hb : calculate_crime_trend_body zone_name crime_gdf with
    | error e => rfl
    | ok v =>
        unfold calculate_crime_trend_body at hb
        dsimp only at hb
        split at hb
        · simp only [Except.ok.injEq] at hb
          rw [← hb]
        · split_ifs at hb <;>
            first
              | (simp only [Except.ok.injEq] at hb; rw [← hb])
              | (simp only [reduceCtorEq] at hb)
  · have hf : List.filter
        (fun row => pyUpper row.CMNOMLOCAL ==
          pyUpper (normalize_locality_name "KENNEDY")) kennedyTrendGdf =
        [kennedyTrendRow] := rfl
    unfold calculate_crime_trend calculate_crime_trend_body
    dsimp only
    rw [hf]
    norm_num [kennedyTrendRow, trend_crime_types, List.foldl, Option.getD, reduceCtorEq,
      pyRound1, roundHalfEven]

theorem fetch_bike_lanes_serves_cache (use_cache : Bool) (sv : SourceEnv)
    (h : sv.networkData = none) (c : GeoFrame) (hc : sv.cacheData = some c) :
    fetch_bike_lanes use_cache sv = .ok c := by
  by_cases hcond : use_cache ∧ sv.cacheData.isSome ∧ sv.cacheFresh
  · simp [fetch_bike_lanes, hcond, hc]
  · simp [fetch_bike_lanes, hcond, h, hc]

theorem fetch_bike_lanes_no_cache_empty (use_cache : Bool) (sv : SourceEnv)
    (h : sv.networkData = none) (hc : sv.cacheData = none) :
    fetch_bike_lanes use_cache sv = .ok [] := by
  by_cases hcond : use_cache ∧ sv.cacheData.isSome ∧ sv.cacheFresh
  · rw [hc] at hcond; simp at hcond
  · simp [fetch_bike_lanes, hcond, h, hc]

theorem fetch_bike_parking_serves_cache (use_cache : Bool) (sv : SourceEnv)
    (h : sv.networkData = none) (c : GeoFrame) (hc : sv.cacheData = some c) :
    fetch_bike_parking use_cache sv = .ok c := by
  by_cases hcond : use_cache ∧ sv.cacheData.isSome ∧ sv.cacheFresh
  · simp [fetch_bike_parking, hcond, hc]
  · simp [fetch_bike_parking, hcond, h, hc]

theorem fetch_bike_parking_no_cache_empty (use_cache : Bool) (sv : SourceEnv)
    (h : sv.networkData = none) (hc : sv.cacheData = none) :
    fetch_bike_parking use_cache sv = .ok [] := by
  by_cases hcond : use_cache ∧ sv.cacheData.isSome ∧ sv.cacheFresh
  · rw [hc] at hcond; simp at hcond
  · simp [fetch_bike_parking, hcond, h, hc]

theorem fetch_zones_serves_cache (use_cache : Bool) (sv : SourceEnv)
    (h : sv.networkData = none) (c : GeoFrame) (hc : sv.cacheData = some c) :
    fetch_zones use_cache sv = .ok c := by
  by_cases hcond : use_cache ∧ sv.cacheData.isSome ∧ sv.cacheFresh
  · simp [fetch_zones, hcond, hc]
  · simp [fetch_zones, hcond, h, hc]

theorem fetch_zones_no_cache_empty (use_cache : Bool) (sv : SourceEnv)
    (h : sv.networkData = none) (hc : sv.cacheData = none) :
    fetch_zones use_cache sv = .ok [] := by
  by_cases hcond : use_cache ∧ sv.cacheData.isSome ∧ sv.cacheFresh
  · rw [hc] at hcond; simp at hcond
  · simp [fetch_zones, hcond, h, hc]

theorem fetch_bike_lanes_isOk (use_cache : Bool) (sv : SourceEnv) :
    ∃ g, fetch_bike_lanes use_cache sv = .ok g := by
  by_cases hcond : use_cache ∧ sv.cacheData.isSome ∧ sv.cacheFresh
  · exact ⟨_, by rw [fetch_bike_lanes, if_pos hcond]⟩
  · cases hn : sv.networkData with
    | some g => exact ⟨g, by rw [fetch_bike_lanes, if_neg hcond, hn]⟩
    | none =>
        cases hc : sv.cacheData with
        | some c => exact ⟨c, by rw [fetch_bike_lanes, if_neg hcond, hn, hc]⟩
        | none => exact ⟨[], by rw [fetch_bike_lanes, if_neg hcond, hn, hc]⟩

theorem fetch_bike_parking_isOk (use_cache : Bool) (sv : SourceEnv) :
    ∃ g, fetch_bike_parking use_cache sv = .ok g := by
  by_cases hcond : use_cache ∧ sv.cacheData.isSome ∧ sv.cacheFresh
  · exact ⟨_, by rw [fetch_bike_parking, if_pos hcond]⟩
  · cases hn : sv.networkData with
    | some g => exact ⟨g, by rw [fetch_bike_parking, if_neg hcond, hn]⟩
    | none =>
        cases hc : sv.cacheData with
        | some c => exact ⟨c, by rw [fetch_bike_parking, if_neg hcond, hn, hc]⟩
        | none => exact ⟨[], by rw [fetch_bike_parking, if_neg hcond, hn, hc]⟩

theorem fetch_zones_isOk (use_cache : Bool) (sv : SourceEnv) :
    ∃ g, fetch_zones use_cache sv = .ok g := by
  by_cases hcond : use_cache ∧ sv.cacheData.isSome ∧ sv.cacheFresh
  · exact ⟨_, by rw [fetch_zones, if_pos hcond]⟩
  · cases hn : sv.networkData with
    | some g => exact ⟨g, by rw [fetch_zones, if_neg hcond, hn]⟩
    | none =>
        cases hc : sv.cacheData with
        | some c => exact ⟨c, by rw [fetch_zones, if_neg hcond, hn, hc]⟩
        | none => exact ⟨[], by rw [fetch_zones, if_neg hcond, hn, hc]⟩

theorem fetch_crime_data_isOk (limit : ℕ) (response : Option (List RawCrimeRecord)) :
    ∃ a, (fetch_crime_data limit response).2 = .ok a := by
  cases response <;> exact ⟨_, rfl⟩

theorem fetch_all_data_isOk (use_cache : Bool) (env : ExtractEnv) :
    ∃ d, fetch_all_data use_cache env = .ok d := by
  obtain ⟨a, ha⟩ := fetch_crime_data_isOk 10000 env.crime
  obtain ⟨b, hb⟩ := fetch_bike_lanes_isOk use_cache env.bike_lanes
  obtain ⟨c, hc⟩ := fetch_bike_parking_isOk use_cache env.bike_parking
  obtain ⟨d, hd⟩ := fetch_zones_isOk use_cache env.localidades
  obtain ⟨e, he⟩ := fetch_zones_isOk use_cache env.upz
  refine ⟨⟨a, b, c, d, e⟩, ?_⟩
  simp [fetch_all_data, ha, hb, hc, hd, he, Bind.bind, Except.bind, Pure.pure, Except.pure]

/-- C6: when the cycling-lane HTTP fetch fails (and analogously for
bike parking and zone boundaries), an existing cache file — even one
older than the TTL — is served; with no cache file an empty structure
is returned; no exception propagates, and the whole `fetch_all_data`
call still succeeds. -/
theorem fetch_fail_open_policy (use_cache : Bool) (env : ExtractEnv)
    (h : env.bike_lanes.networkData = none) :
    (∀ c, env.bike_lanes.cacheData = some c →
        fetch_bike_lanes use_cache env.bike_lanes = .ok c) ∧
    (env.bike_lanes.cacheData = none →
        fetch_bike_lanes use_cache env.bike_lanes = .ok []) ∧
    (∀ sv : SourceEnv, sv.networkData = none →
        (∀ c, sv.cacheData = some c →
            fetch_bike_parking use_cache sv = .ok c ∧
            fetch_zones use_cache sv = .ok c) ∧
        (sv.cacheData = none →
            fetch_bike_parking use_cache sv = .ok [] ∧
            fetch_zones use_cache sv = .ok [])) ∧
    (∃ data, fetch_all_data use_cache env = .ok data) := by
  refine ⟨?_, ?_, ?_, fetch_all_data_isOk use_cache env⟩
  · intro c hc
    exact fetch_bike_lanes_serves_cache use_cache env.bike_lanes h c hc
  · intro hc
    exact fetch_bike_lanes_no_cache_empty use_cache env.bike_lanes h hc
  · intro sv hsv
    constructor
    · intro c hc
      exact ⟨fetch_bike_parking_serves_cache use_cache sv hsv c hc,
             fetch_zones_serves_cache use_cache sv hsv c hc⟩
    · intro hc
      exact ⟨fetch_bike_parking_no_cache_empty use_cache sv hsv hc,
             fetch_zones_no_cache_empty use_cache sv hsv hc⟩

theorem fetch_fail_open_policy_witness :
    c6Env.bike_lanes.networkData = none ∧
    ((∀ c, c6Env.bike_lanes.cacheData = some c →
        fetch_bike_lanes true c6Env.bike_lanes = .ok c) ∧
    (c6Env.bike_lanes.cacheData = none →
        fetch_bike_lanes true c6Env.bike_lanes = .ok []) ∧
    (∀ sv : SourceEnv, sv.networkData = none →
        (∀ c, sv.cacheData = some c →
            fetch_bike_parking true sv = .ok c ∧
            fetch_zones true sv = .ok c) ∧
        (sv.cacheData = none →
            fetch_bike_parking true sv = .ok [] ∧
            fetch_zones true sv = .ok [])) ∧
    (∃ data, fetch_all_data true c6Env = .ok data)) :=
  ⟨rfl, fetch_fail_open_policy true c6Env rfl⟩

/-- C9: the `$limit` query parameter sent by `fetch_crime_data` is
`min(limit, 100)`, hence never exceeds 100; with the default
`limit=10000` it is exactly 100. -/
theorem fetch_crime_data_limit_capped :
    (∀ (limit : ℕ) (response : Option (List RawCrimeRecord)),
        (fetch_crime_data limit response).1.limit = min limit 100 ∧
        (fetch_crime_data limit response).1.limit ≤ 100) ∧
    (∀ response, (fetch_crime_data 10000 response).1.limit = 100) := by
  constructor
  · intro limit response
    have hp : (fetch_crime_data limit response).1 = crime_query_params limit := by
      cases response <;> rfl
    rw [hp]
    exact ⟨rfl, Nat.min_le_right limit 100⟩
  · intro response
    have hp : (fetch_crime_data 10000 response).1 = crime_query_params 10000 := by
      cases response <;> rfl
    rw [hp]
    rfl

/-- C7 (code defect): with 3 zones in the store, requesting
`n_clusters=5` makes the detector report insufficient data (it fits no
model), but the `/ml/clusters` endpoint answers 500 — not the 404 the
claim states — because the blanket `except Exception` swallows the
`HTTPException(404)` and re-raises it as a 500. -/
theorem cluster_zones_endpoint_insufficient_data_responds_500 :
    detector_cluster_zones (get_latest_scores threeZoneStore 100) 5 =
      ClusterResult.insufficient_data ∧
    (cluster_zones_endpoint threeZoneStore 5).status = 500 ∧
    (cluster_zones_endpoint threeZoneStore 5).status ≠ 404 := by
  have hsort : get_latest_scores threeZoneStore 100 =
      [⟨"KENNEDY", 10, "VERY_HIGH"⟩, ⟨"BOSA", 30, "HIGH"⟩, ⟨"CHAPINERO", 55, "MEDIUM"⟩] := by
    norm_num [get_latest_scores, threeZoneStore, sortAsc, insertAsc]
  refine ⟨?_, ?_, ?_⟩
  · rw [hsort]; rfl
  · unfold cluster_zones_endpoint
    rw [hsort]
    rfl
  · unfold cluster_zones_endpoint
    rw [hsort]
    simp

/-- C8: `GET /zones` applies the `risk_level` filter only after the
database read is truncated to `limit` rows ordered by ascending score —
structurally, the filtered listing is the filter of
`get_latest_scores limit` — so a store can hold two `VERY_LOW` zones
while `list_zones` with `limit=2` and `risk_level=VERY_LOW` returns
none of them. -/
theorem list_zones_filters_after_truncation :
    (∀ (store : List ViewRow) (rl : String) (limit : ℕ),
        list_zones store (some rl) limit =
          (get_latest_scores store limit).filter (fun s => s.risk_level == rl)) ∧
    list_zones c8Store (some "VERY_LOW") 2 = [] ∧
    (c8Store.filter (fun s => s.risk_level == "VERY_LOW")).length = 2 := by
  refine ⟨fun _ _ _ => rfl, ?_, ?_⟩
  · have hsort : get_latest_scores c8Store 2 =
        [⟨"BOSA", 10, "VERY_HIGH"⟩, ⟨"KENNEDY", 15, "VERY_HIGH"⟩] := by
      norm_num [get_latest_scores, c8Store, sortAsc, insertAsc]
    unfold list_zones
    rw [hsort]
    rfl
  · rfl

/-- C10: every prediction `predict_trend` returns (any zone history it
accepts, i.e. with at least 3 matching records) has a non-negative
`predicted_thefts_30d`: the 30-day extrapolation is clamped below at 0
before being returned. -/
theorem predict_trend_prediction_nonneg
    (zone_code : String) (historical_data : List HistoryRow)
    (r : TrendPrediction)
    (h : predict_trend zone_code historical_data = some r) :
    0 ≤ r.predicted_thefts_30d := by
  unfold predict_trend at h
  dsimp only at h
  split at h
  · exact absurd h (by simp)
  · simp only [Option.some.injEq] at h
    rw [← h]
    exact le_max_left 0 _

theorem predict_trend_prediction_nonneg_witness :
    predict_trend "Z" decliningHistory =
      some ⟨"Z", 0, 0, "MEJORANDO_SIGNIFICATIVAMENTE", -50, "LOW"⟩ ∧
    0 ≤ (⟨"Z", 0, 0, "MEJORANDO_SIGNIFICATIVAMENTE", -50, "LOW"⟩ :
        TrendPrediction).predicted_thefts_30d :=
  have heval : predict_trend "Z" decliningHistory =
      some ⟨"Z", 0, 0, "MEJORANDO_SIGNIFICATIVAMENTE", -50, "LOW"⟩ := by
    norm_num [predict_trend, decliningHistory, sortByDate, insertByDate,
      List.filter, max_def]
  ⟨heval, predict_trend_prediction_nonneg "Z" decliningHistory _ heval⟩

end Roda
